import Mathlib

/-
Verification development for the flpy iterator library
(src/flpy/iterators.py): a fluent wrapper around Python sequence
operations with two wrapper kinds (Iterable = materialized, Iterator =
cursor), a factory `It`, an ownership-transfer operation `to`, and a
string mini-language parsed by `parse_func`.

The Python code is shallowly embedded: pure functions become Lean
functions; the held sequence of a wrapper is modelled as a `List Int`
(elements are integers unless a claim needs nested values); Python
exceptions become `Except PyErr`; Python `None` becomes `Option.none`.
-/

set_option autoImplicit false

namespace Flpy

/-- Python exceptions relevant to the embedded code paths. -/
inductive PyErr where
  /-- The `TypeError` with its message. -/
  | typeError (msg : String)
  /-- The `ValueError` with its message. -/
  | valueError (msg : String)
  /-- The `IndexError`. -/
  | indexError
  /-- The `SyntaxError` raised by `eval` on malformed lambda text. -/
  | syntaxError
  deriving DecidableEq, Repr

/-! ### Ownership transfer (`Iterable.to`, `Iterable.set_value`) -/

/-- The `empty_iterable()` from the source: returns a fresh empty list. -/
def empty_iterable : List Int := []

/-- The `Iterable` wrapper: a single slot `x` holding the wrapped sequence
(source: `__slots__ = "x"`, `self.x = x`). -/
structure Iterable where
  x : List Int
  deriving DecidableEq, Repr

/-- The `Iterable.set_value`: replace the held content with `x`. -/
def Iterable.set_value (w : Iterable) (v : List Int) : Iterable :=
  { w with x := v }

/-- The `Iterable.to(iterable, safe=True)` from the source:
`iterable.set_value(self.x); if safe: self.set_value(empty_iterable()); return self`.
The result triple is (new state of `self`, new state of the target, the
returned wrapper). -/
def Iterable.to (a : Iterable) (b : Iterable) (safe : Bool) :
    Iterable × Iterable × Iterable :=
  let b' := b.set_value a.x
  let a' := if safe then a.set_value empty_iterable else a
  (a', b', a')

/-! ### Cursor state (`Iterator.__next__`)

An flpy `Iterator` wraps a host iterator; `__next__` delegates to it.
The host iterators this library constructs (list iterators, `map`,
`filter`, `islice`, `chain`, `zip` objects) all follow the protocol in
which an exhausted iterator stays exhausted, so a cursor state is the
list of elements not yet produced. -/

/-- One pull on a cursor: the produced element (`none` = the exhausted
signal, i.e. `StopIteration`) and the successor state. -/
def pull (c : List Int) : Option Int × List Int :=
  match c with
  | [] => (none, [])
  | e :: rest => (some e, rest)

/-- The state reached after `n` further pulls. -/
def advanceN : Nat → List Int → List Int
  | 0, c => c
  | n + 1, c => advanceN n (pull c).2

/-! ### The `empty` class constructors -/

/-- The `empty_iterator()` from the source: a generator yielding nothing. -/
def empty_iterator : List Int := []

/-- The `Iterable.empty()` from the source: `return empty_iterable()`.
A Python call evaluates to `some` value, or `none` for Python `None`. -/
def Iterable.empty : Option (List Int) :=
  some empty_iterable

/-- The `Iterator.empty()` from the source: the body is the lone expression
statement `empty_iterator()` with no `return`, so the created iterator is
discarded and the call evaluates to Python `None`. -/
def Iterator.empty : Option (List Int) :=
  let discarded := empty_iterator
  let _ := discarded
  none

/-! ### The factory `It`

`It(x)` dispatches on the shape of its argument. The shapes that matter:
an instance of the flpy `Iterator` class, a raw host cursor such as a
generator (has a `next` operation but is not an flpy instance), a plain
container such as a list (iterable, no `next`), and a non-iterable value
such as an integer. -/

/-- The four argument shapes `It` can receive. -/
inductive Arg where
  /-- An instance of the flpy `Iterator` class. -/
  | flpyIterator
  /-- A raw host cursor, e.g. a generator: exposes `next`, but is not an
  instance of the flpy `Iterator` class. -/
  | generator
  /-- A plain container, e.g. a list: iterable, no `next`. -/
  | container
  /-- A non-iterable value, e.g. an integer. -/
  | intValue
  deriving DecidableEq, Repr

/-- The `isinstance(x, Iterator)` where `Iterator` is the flpy class: true
only for actual flpy `Iterator` instances, never for raw host cursors. -/
def isinstanceIterator : Arg → Bool
  | .flpyIterator => true
  | _ => false

/-- Whether the value exposes the cursor capability (`next`). -/
def hasNext : Arg → Bool
  | .flpyIterator => true
  | .generator => true
  | _ => false

/-- Whether `iter(x)` succeeds (the value is iterable). -/
def iterSucceeds : Arg → Bool
  | .intValue => false
  | _ => true

/-- Outcome of a call to the factory. -/
inductive ItResult where
  /-- An flpy `Iterator` (cursor) wrapper around the argument. -/
  | cursorWrap (inner : Arg)
  /-- An flpy `Iterable` (materialized) wrapper around the argument. -/
  | materializedWrap (inner : Arg)
  /-- The `TypeError` raised by the builtin `iter` itself; it escapes
  because the source only catches `AttributeError`, so the custom
  `TypeError` naming `x` on line 428 is never reached. -/
  | typeErrorFromIter
  /-- The custom `TypeError(f"Argument \x7bx\x7d is not an Iterable")`. -/
  | typeErrorNamingX
  deriving DecidableEq, Repr

/-- The factory `It` as written in the source: dispatch on
`isinstance(x, Iterator)`, then on `iter(x)` succeeding; `iter` raises
`TypeError` on a non-iterable, which the `except AttributeError` clause
does not catch. -/
def It (x : Arg) : ItResult :=
  if isinstanceIterator x then .cursorWrap x
  else if iterSucceeds x then .materializedWrap x
  else .typeErrorFromIter

/-- The factory as the spec (and the source docstring of `It`) describes
it: dispatch on whether the argument exposes `next`, and fail with a
type error naming `x` otherwise. Stated for comparison with `It`. -/
def It_spec (x : Arg) : ItResult :=
  if hasNext x then .cursorWrap x
  else if iterSucceeds x then .materializedWrap x
  else .typeErrorNamingX

/-! ### `Iterable.repeat` -/

/-- An optional `times` argument as a Python value: the method default is
`None`, and the method always forwards it as the keyword `times=`. -/
inductive Times where
  /-- Python `None`. -/
  | pyNone
  /-- An integer count. -/
  | int (n : Int)
  deriving DecidableEq, Repr

/-- The `itertools.repeat(x, times=t)`. Its `times` keyword only accepts an
integer: passing `None` raises
`TypeError: NoneType object cannot be interpreted as an integer`
(only *omitting* `times` gives infinite repetition, and the flpy method
never omits it). A negative keyword count is treated as zero. -/
def itertoolsRepeat {α : Type} (x : α) (t : Times) : Except PyErr (List α) :=
  match t with
  | .pyNone => .error (.typeError "NoneType object cannot be interpreted as an integer")
  | .int n => .ok (List.replicate n.toNat x)

/-- The `Iterable.repeat(times=None)` from the source:
`Iterator(itertools.repeat(self.x, times=times))`, repeating the whole
held value `self.x`, with the method default `times = None`. -/
def Iterable.repeatCall (w : Iterable) (t : Times) :
    Except PyErr (List (List Int)) :=
  itertoolsRepeat w.x t

/-! ### `Iterable.accumulate` -/

/-- A Python value passed positionally to `itertools.accumulate`: either
a callable or a list. -/
inductive AccArg where
  /-- A callable of two integers. -/
  | func (f : Int → Int → Int)
  /-- A list value. -/
  | list (xs : List Int)

/-- The `iter(v)` on an `AccArg`: lists are iterable, functions are not. -/
def accIter : AccArg → Except PyErr (List Int)
  | .func _ => .error (.typeError "function object is not iterable")
  | .list xs => .ok xs

/-- The running partial folds `x1, f x1 x2, f (f x1 x2) x3, ...`. -/
def runningFolds (f : Int → Int → Int) : Int → List Int → List Int
  | a, [] => [a]
  | a, y :: rest => a :: runningFolds f (f a y) rest

/-- The `itertools.accumulate(iterable, func)`: takes the *iterable* first
and the function second; constructing it calls `iter(iterable)`, so a
callable in the iterable position raises `TypeError` immediately. -/
def itertoolsAccumulate (iterable : AccArg) (func : AccArg) :
    Except PyErr (List Int) := do
  let xs ← accIter iterable
  match xs, func with
  | [], _ => pure []
  | [x], _ => pure [x]
  | x :: y :: rest, .func f => pure (runningFolds f x (y :: rest))
  | _ :: _ :: _, .list _ => .error (.typeError "list object is not callable")

/-- The `Iterable.accumulate(f)` as written in the source:
`Iterator(itertools.accumulate(f, self.x))` — the function is passed in
the *iterable* position and the held sequence in the *function*
position. The method accepts no initial-value argument. -/
def Iterable.accumulate (w : Iterable) (f : Int → Int → Int) :
    Except PyErr (List Int) :=
  itertoolsAccumulate (.func f) (.list w.x)

/-- The behavior the spec describes for `accumulate`: a cursor of the
running partial results of folding `f` over the held sequence. Stated
for comparison with `Iterable.accumulate`. -/
def accumulate_spec (w : Iterable) (f : Int → Int → Int) : List Int :=
  match w.x with
  | [] => []
  | x :: rest => runningFolds f x rest

/-! ### `min`, `max`, `min_max` -/

/-- Builtin `min` over a sequence: error on an empty sequence, otherwise
a left fold of binary `min` seeded with the first element. -/
def pymin : List Int → Except PyErr Int
  | [] => .error (.valueError "min() arg is an empty sequence")
  | e :: rest => .ok (rest.foldl min e)

/-- Builtin `max` over a sequence: error on an empty sequence, otherwise
a left fold of binary `max` seeded with the first element. -/
def pymax : List Int → Except PyErr Int
  | [] => .error (.valueError "max() arg is an empty sequence")
  | e :: rest => .ok (rest.foldl max e)

/-- The `Iterable.max()` from the source: `max(self.x)`. -/
def Iterable.max (w : Iterable) : Except PyErr Int :=
  pymax w.x

/-- The `Iterable.min()` from the source: `min(self.x)`. -/
def Iterable.min (w : Iterable) : Except PyErr Int :=
  pymin w.x

/-- The `Iterable.min_max()` from the source: `return self.min(), self.max()`.
On a materialized wrapper both reductions re-enumerate the same held
container. -/
def Iterable.min_max (w : Iterable) : Except PyErr Int × Except PyErr Int :=
  (w.min, w.max)

/-- The `min_max` as inherited by the cursor wrapper, where `self.x` is a
stateful iterator over `c`: `min(self.x)` drains the iterator completely,
so the subsequent `max(self.x)` runs over the exhausted (empty) cursor. -/
def Iterator.min_max (c : List Int) : Except PyErr (Int × Int) := do
  let m ← pymin c
  let M ← pymax ([] : List Int)
  pure (m, M)

/-! ### Integer `__getitem__` over a natively indexable container -/

/-- An element of an indexed container: either a non-iterable integer or
an iterable sub-container. -/
inductive Elem where
  /-- A plain integer: not iterable. -/
  | int (n : Int)
  /-- A nested container: iterable. -/
  | sub (xs : List Int)
  deriving DecidableEq, Repr

/-- Whether `iter` succeeds on the element. -/
def Elem.iterable : Elem → Bool
  | .int _ => false
  | .sub _ => true

/-- The factory applied to a container element inside `__getitem__`:
neither shape is an flpy `Iterator` instance, so `It` wraps an iterable
element as a materialized `Iterable` and lets the `TypeError` raised by
`iter` on a non-iterable escape. -/
def ItElem (e : Elem) : Except PyErr Elem :=
  if e.iterable then .ok e
  else .error (.typeError "int object is not iterable")

/-- Outcome of `wrapper[i]` for an integer index. -/
inductive GetResult where
  /-- The `It(self.x[i])` succeeded: a materialized wrapper around the
  element itself. -/
  | materializedOf (e : Elem)
  /-- The fallback `self.skip(i).take(1)`: an `islice` cursor that will
  yield exactly these elements. -/
  | cursorOf (xs : List Elem)
  deriving DecidableEq, Repr

/-- The `Iterable.__getitem__` from the source, for an integer index over a
natively indexable container: `try: return It(self.x[slc]) except
TypeError: ... return self.skip(slc).take(1)`. Out-of-range native
indexing raises `IndexError`, which the `except TypeError` clause does
not catch. -/
def getitemInt (xs : List Elem) (i : Nat) : Except PyErr GetResult :=
  if h : i < xs.length then
    match ItElem (xs.get ⟨i, h⟩) with
    | .ok e => .ok (.materializedOf e)
    | .error _ => .ok (.cursorOf ((xs.drop i).take 1))
  else .error .indexError

/-! ### `parse_func` and the string mini-language

`STR_FUNC_RE = re.compile(r"\|([^\|]*)\|(.*)")`, used with `re.match`
(anchored at the start only): the literal must begin with a bar, group 1
is everything up to the next bar (any character except a bar, including
newlines), and group 2 is the rest of that line (`.` does not cross a
newline, and trailing text after the match is ignored). On a match the
source builds `f"lambda \x7bmatch.group(1)\x7d: \x7bmatch.group(2)\x7d"`
and hands it to `eval`; the model below therefore combines the regex
split with the host evaluation of that lambda text for the simple
expression fragment the literals use (identifiers, integer literals,
`*`, `%`, `==`). -/

/-- Split a character list at the first bar, returning the characters
before it and the characters after it. -/
def splitAtBar : List Char → Option (List Char × List Char)
  | [] => none
  | c :: rest =>
    if c = '|' then some ([], rest)
    else
      match splitAtBar rest with
      | some (p, b) => some (c :: p, b)
      | none => none

/-- The `STR_FUNC_RE.match(s)`: succeeds when `s` starts with a bar and a
second bar follows; group 1 is the text between the bars, group 2 the
text after the second bar up to the end of that line. -/
def reMatch : List Char → Option (List Char × List Char)
  | [] => none
  | c :: rest =>
    if c = '|' then
      match splitAtBar rest with
      | some (p, b) => some (p, b.takeWhile (fun d => d ≠ '\n'))
      | none => none
    else none

/-- Tokens of the expression fragment used by the transform literals. -/
inductive Tok where
  /-- An identifier. -/
  | ident (s : String)
  /-- An integer literal. -/
  | num (n : Int)
  /-- The `*` -/
  | star
  /-- The `%` -/
  | percentSym
  /-- The `==` -/
  | eqeq
  deriving DecidableEq, Repr

/-- First character of an identifier. -/
def isIdentStart (c : Char) : Bool := c.isAlpha || c = '_'

/-- Subsequent character of an identifier. -/
def isIdentChar (c : Char) : Bool := c.isAlpha || c.isDigit || c = '_'

/-- Numeric value of a digit run. -/
def digitsVal (cs : List Char) : Nat :=
  List.foldl (fun a c => a * 10 + (c.toNat - 48)) 0 cs

/-- Fuelled tokenizer; each step consumes at least one character, so
fuel `length + 1` never runs out. -/
def tokenizeFuel : Nat → List Char → Option (List Tok)
  | 0, _ => none
  | _ + 1, [] => some []
  | fuel + 1, c :: rest =>
    if c = ' ' then tokenizeFuel fuel rest
    else if c = '*' then (tokenizeFuel fuel rest).map (fun ts => Tok.star :: ts)
    else if c = '%' then (tokenizeFuel fuel rest).map (fun ts => Tok.percentSym :: ts)
    else if c = '=' then
      match rest with
      | '=' :: rest2 => (tokenizeFuel fuel rest2).map (fun ts => Tok.eqeq :: ts)
      | _ => none
    else if c.isDigit then
      (tokenizeFuel fuel (rest.dropWhile Char.isDigit)).map
        (fun ts => Tok.num (Int.ofNat (digitsVal (c :: rest.takeWhile Char.isDigit))) :: ts)
    else if isIdentStart c then
      (tokenizeFuel fuel (rest.dropWhile isIdentChar)).map
        (fun ts => Tok.ident (String.mk (c :: rest.takeWhile isIdentChar)) :: ts)
    else none

/-- Tokenize a body text. -/
def tokenize (cs : List Char) : Option (List Tok) :=
  tokenizeFuel (cs.length + 1) cs

/-- Abstract syntax of the expression fragment. -/
inductive Expr where
  /-- A parameter reference. -/
  | var (s : String)
  /-- An integer literal. -/
  | lit (n : Int)
  /-- Multiplication. -/
  | mulE (a b : Expr)
  /-- Python `%` (floor modulo, sign of the divisor). -/
  | modE (a b : Expr)
  /-- Python `==`. -/
  | eqE (a b : Expr)
  deriving DecidableEq, Repr

/-- Parse one atom: an identifier or an integer literal. -/
def parseAtom : List Tok → Option (Expr × List Tok)
  | Tok.ident s :: rest => some (.var s, rest)
  | Tok.num n :: rest => some (.lit n, rest)
  | _ => none

/-- Left-associative chain of `*` and `%` continuing from `acc`. -/
def parseMulFuel : Nat → Expr → List Tok → Option (Expr × List Tok)
  | 0, _, _ => none
  | fuel + 1, acc, Tok.star :: rest =>
    (match parseAtom rest with
     | some (a, rest2) => parseMulFuel fuel (.mulE acc a) rest2
     | none => none)
  | fuel + 1, acc, Tok.percentSym :: rest =>
    (match parseAtom rest with
     | some (a, rest2) => parseMulFuel fuel (.modE acc a) rest2
     | none => none)
  | _ + 1, acc, ts => some (acc, ts)

/-- Parse a multiplicative expression. -/
def parseMul (ts : List Tok) : Option (Expr × List Tok) :=
  match parseAtom ts with
  | some (a, rest) => parseMulFuel (rest.length + 1) a rest
  | none => none

/-- Parse a whole body: a multiplicative expression, optionally compared
with `==` to a second one; all tokens must be consumed. -/
def parseExprToks (ts : List Tok) : Option Expr :=
  match parseMul ts with
  | some (a, []) => some a
  | some (a, Tok.eqeq :: rest) =>
    (match parseMul rest with
     | some (b, []) => some (.eqE a b)
     | _ => none)
  | _ => none

/-- A runtime value of the expression fragment. -/
inductive PyVal where
  /-- An integer. -/
  | int (n : Int)
  /-- A boolean. -/
  | bool (b : Bool)
  deriving DecidableEq, Repr

/-- Look a parameter up in the call environment. -/
def lookupVar : List (String × Int) → String → Option Int
  | [], _ => none
  | (k, v) :: rest, s => if k = s then some v else lookupVar rest s

/-- Evaluate a body expression: `*` multiplies integers, `%` is floor
modulo (the sign follows the divisor, as in the host language), `==`
compares values and yields a boolean (values of different shapes compare
unequal). -/
def evalExpr (env : List (String × Int)) : Expr → Option PyVal
  | .var s => (lookupVar env s).map PyVal.int
  | .lit n => some (.int n)
  | .mulE a b =>
    (match evalExpr env a, evalExpr env b with
     | some (.int x), some (.int y) => some (.int (x * y))
     | _, _ => none)
  | .modE a b =>
    (match evalExpr env a, evalExpr env b with
     | some (.int x), some (.int y) =>
       if y = 0 then none else some (.int (Int.fmod x y))
     | _, _ => none)
  | .eqE a b =>
    (match evalExpr env a, evalExpr env b with
     | some (.int x), some (.int y) => some (.bool (x == y))
     | some (.bool x), some (.bool y) => some (.bool (x == y))
     | some _, some _ => some (.bool false)
     | _, _ => none)

/-- Split the parameter text at commas. -/
def splitOnComma : List Char → List (List Char)
  | [] => [[]]
  | c :: rest =>
    if c = ',' then [] :: splitOnComma rest
    else
      match splitOnComma rest with
      | p :: ps => (c :: p) :: ps
      | [] => [[c]]

/-- Strip leading and trailing spaces. -/
def trimSpaces (cs : List Char) : List Char :=
  ((cs.dropWhile (fun c => c = ' ')).reverse.dropWhile (fun c => c = ' ')).reverse

/-- Whether a character run is a valid identifier. -/
def isIdentName : List Char → Bool
  | [] => false
  | c :: rest => isIdentStart c && rest.all isIdentChar

/-- Whether the names are pairwise distinct. -/
def allDistinct : List String → Bool
  | [] => true
  | s :: rest => (!rest.contains s) && allDistinct rest

/-- The function object produced by evaluating the built lambda text:
its declared parameters and its body expression. -/
structure PyLam where
  /-- Declared parameter names, in order. -/
  params : List String
  /-- The body expression. -/
  body : Expr
  deriving DecidableEq, Repr

/-- The `eval(f"lambda \x7bg1\x7d: \x7bg2\x7d")`: succeeds when the spliced
parameter text is an (possibly empty) comma-separated list of distinct
identifiers and the spliced body text parses as one expression of the
fragment; otherwise the host raises `SyntaxError`. -/
def buildLambda (rawParams rawBody : List Char) : Option PyLam :=
  let ps : Option (List String) :=
    if trimSpaces rawParams = [] then some []
    else
      let pieces := (splitOnComma rawParams).map trimSpaces
      if pieces.all isIdentName then some (pieces.map String.mk) else none
  match ps with
  | none => none
  | some ps =>
    if allDistinct ps then
      match tokenize rawBody with
      | none => none
      | some ts =>
        match parseExprToks ts with
        | none => none
        | some e => some ⟨ps, e⟩
    else none

/-- An argument to `parse_func`: a string literal or Python `None`
(a native callable passes through unchanged and is not modelled). -/
inductive FuncArg where
  /-- A string literal. -/
  | str (s : String)
  /-- Python `None`. -/
  | pyNone
  deriving DecidableEq, Repr

/-- The `parse_func` from the source: a non-string argument is returned
unchanged (`None` stays `None`); a string is matched against
`STR_FUNC_RE`, a match is turned into a lambda and evaluated, and a
non-match raises
`ValueError(f"Argument \x7bfunc\x7d could not be parsed into a valid function.")`. -/
def parse_func (a : FuncArg) : Except PyErr (Option PyLam) :=
  match a with
  | .pyNone => .ok none
  | .str s =>
    match reMatch s.data with
    | some (g1, g2) =>
      (match buildLambda g1 g2 with
       | some f => .ok (some f)
       | none => .error .syntaxError)
    | none =>
      .error (.valueError ("Argument " ++ s ++ " could not be parsed into a valid function."))

/-- Call the parsed function object on integer arguments: the host binds
exactly the declared parameters, so an arity mismatch fails. -/
def PyLam.call (f : PyLam) (args : List Int) : Option PyVal :=
  if f.params.length = args.length then
    evalExpr (List.zip f.params args) f.body
  else none

end Flpy

namespace Flpy

/-! ### C3: ownership transfer -/

/-- C3: after `a.to(b)` with `safe = true`, `b` holds exactly the
sequence `a` held before the call, `a` holds the canonical empty
sequence, and the call returns `a` (in its new state); with
`safe = false`, `a` and `b` both hold the very content `a` held before,
and the call again returns `a`. -/
theorem to_ownership_transfer (a b : Iterable) :
    ((a.to b true).2.1.x = a.x ∧ (a.to b true).1.x = empty_iterable ∧
      (a.to b true).2.2 = (a.to b true).1) ∧
    ((a.to b false).2.1.x = a.x ∧ (a.to b false).1.x = a.x ∧
      (a.to b false).2.2 = (a.to b false).1) := by
  constructor
  · exact ⟨rfl, rfl, rfl⟩
  · exact ⟨rfl, rfl, rfl⟩

/-! ### C7: exhaustion idempotence -/

/-- Pulling on the empty cursor leaves it empty. -/
theorem advanceN_nil (n : Nat) : advanceN n [] = [] := by
  induction n with
  | zero => rfl
  | succ n ih => simpa [advanceN, pull] using ih

/-- C7: once a cursor signals exhausted, every later pull also signals
exhausted — an exhausted cursor never resurrects elements. -/
theorem pull_exhausted_forever (c : List Int) (h : (pull c).1 = none) :
    ∀ n : Nat, (pull (advanceN n c)).1 = none := by
  intro n
  have hc : c = [] := by
    cases c with
    | nil => rfl
    | cons e rest => simp [pull] at h
  subst hc
  rw [advanceN_nil]
  exact h

/-- Concrete witness for C7: the cursor over the empty sequence is
exhausted and stays exhausted after three further pulls. -/
theorem pull_exhausted_forever_witness :
    (pull ([] : List Int)).1 = none ∧ (pull (advanceN 3 ([] : List Int))).1 = none :=
  ⟨by decide, pull_exhausted_forever [] (by decide) 3⟩

/-! ### C9: the two `empty` constructors -/

/-- C9: `Iterator.empty()` evaluates to the Python `None` sentinel (its
body never returns the iterator it creates), while `Iterable.empty()`
returns the empty concrete container. -/
theorem iterator_empty_returns_none :
    Iterator.empty = none ∧ Iterable.empty = some ([] : List Int) := by
  constructor
  · rfl
  · rfl

/-! ### C1: factory dispatch -/

/-- C1 (code evaluated at the failing input): `It` applied to a raw host
cursor — a generator, which exposes `next` — returns a *materialized*
wrapper, because the source dispatches on `isinstance(x, Iterator)`
(false for a generator), while the spec and the docstring of `It` demand
a cursor wrapper for any value exposing `next`; and `It` applied to a
non-iterable never reaches its own `TypeError` naming the argument,
since `iter` raises `TypeError` and the source catches only
`AttributeError`. -/
theorem It_dispatch_on_isinstance :
    It .generator = .materializedWrap .generator ∧
    It_spec .generator = .cursorWrap .generator ∧
    hasNext .generator = true ∧
    It .intValue = .typeErrorFromIter ∧
    It_spec .intValue = .typeErrorNamingX := by
  decide

/-! ### C5: `repeat` -/

/-- C5 (code evaluated at the failing input): calling `repeat()` with
`times` absent passes `times=None` to `itertools.repeat`, which raises
`TypeError` instead of repeating infinitely; with an explicit count the
method does repeat the whole held value, e.g. twice for `times=2`. -/
theorem repeat_times_none_raises :
    Iterable.repeatCall ⟨[1, 2, 3]⟩ .pyNone =
      .error (.typeError "NoneType object cannot be interpreted as an integer") ∧
    Iterable.repeatCall ⟨[1, 2, 3]⟩ (.int 2) =
      .ok [[1, 2, 3], [1, 2, 3]] := by
  constructor
  · rfl
  · rfl

/-! ### C2: `accumulate` -/

/-- C2 (code evaluated at the failing input): `accumulate` passes the
function in the iterable position of `itertools.accumulate`, so
`It([1,2,3]).accumulate(+)` raises `TypeError` (a function is not
iterable) instead of producing the running partial results `[1,3,6]`
that the spec describes. -/
theorem accumulate_swapped_arguments :
    Iterable.accumulate ⟨[1, 2, 3]⟩ (fun a b => a + b) =
      .error (.typeError "function object is not iterable") ∧
    accumulate_spec ⟨[1, 2, 3]⟩ (fun a b => a + b) = [1, 3, 6] := by
  constructor
  · rfl
  · rfl

/-! ### C4: parse failures and the `None` sentinel -/

/-- C4: every string literal the grammar regex rejects makes
`parse_func` fail with the `ValueError` carrying the offending literal
in its message, while a `None` transform is forwarded unchanged and is
not a parse failure. -/
theorem parse_func_rejects_nonmatching (s : String)
    (h : reMatch s.data = none) :
    parse_func (.str s) =
      .error (.valueError
        ("Argument " ++ s ++ " could not be parsed into a valid function.")) ∧
    parse_func .pyNone = .ok none := by
  constructor
  · simp [parse_func, h]
  · rfl

/-- Concrete witness for C4: `"not a literal"` does not match the
grammar and is rejected with the error carrying the literal; `None`
passes through. -/
theorem parse_func_rejects_nonmatching_witness :
    reMatch "not a literal".data = none ∧
    parse_func (.str "not a literal") =
      .error (.valueError
        ("Argument " ++ "not a literal" ++ " could not be parsed into a valid function.")) ∧
    parse_func .pyNone = .ok none :=
  ⟨rfl, (parse_func_rejects_nonmatching "not a literal" rfl).1,
    (parse_func_rejects_nonmatching "not a literal" rfl).2⟩

/-! ### C6: parser round trip -/

/-- C6: `parse("|x, y| x * y")` yields a callable with exactly the
declared parameters `x, y` that maps `(4, 5)` to `20` (and rejects a
call with only one argument), and `parse("|v| v % 3 == 0")` yields a
one-parameter callable mapping `6` to `true` and `7` to `false`. -/
theorem parse_func_round_trip :
    (∃ f, parse_func (.str "|x, y| x * y") = .ok (some f) ∧
      f.params = ["x", "y"] ∧
      f.call [4, 5] = some (.int 20) ∧
      f.call [4] = none) ∧
    (∃ g, parse_func (.str "|v| v % 3 == 0") = .ok (some g) ∧
      g.params = ["v"] ∧
      g.call [6] = some (.bool true) ∧
      g.call [7] = some (.bool false)) := by
  refine ⟨⟨⟨["x", "y"], .mulE (.var "x") (.var "y")⟩, rfl, rfl, rfl, rfl⟩,
    ⟨⟨["v"], .eqE (.modE (.var "v") (.lit 3)) (.lit 0)⟩, rfl, rfl, rfl, rfl⟩⟩

/-! ### C8: `min_max` and empty-sequence errors -/

/-- A left fold of binary `min` lands on the seed or on a list element. -/
theorem foldl_min_mem (l : List Int) (a : Int) : l.foldl min a ∈ a :: l := by
  induction l generalizing a with
  | nil => simp [List.foldl]
  | cons b l ih =>
    rw [List.foldl_cons]
    rcases List.mem_cons.mp (ih (min a b)) with h1 | h1
    · rw [h1]
      rcases min_choice a b with h2 | h2
      · rw [h2]; exact List.mem_cons_self _ _
      · rw [h2]; exact List.mem_cons.mpr (Or.inr (List.mem_cons_self _ _))
    · exact List.mem_cons.mpr (Or.inr (List.mem_cons.mpr (Or.inr h1)))

/-- A left fold of binary `min` is a lower bound for the seed and every
list element. -/
theorem foldl_min_le (l : List Int) (a : Int) :
    ∀ y ∈ a :: l, l.foldl min a ≤ y := by
  induction l generalizing a with
  | nil =>
    intro y hy
    simp at hy
    simp [List.foldl, hy]
  | cons b l ih =>
    intro y hy
    rw [List.foldl_cons]
    have hub : (l.foldl min (min a b)) ≤ min a b :=
      ih (min a b) (min a b) (List.mem_cons_self _ _)
    rcases List.mem_cons.mp hy with h1 | h1
    · rw [h1]
      exact le_trans hub (min_le_left a b)
    rcases List.mem_cons.mp h1 with h2 | h2
    · rw [h2]
      exact le_trans hub (min_le_right a b)
    · exact ih (min a b) y (List.mem_cons.mpr (Or.inr h2))

/-- A left fold of binary `max` lands on the seed or on a list element. -/
theorem foldl_max_mem (l : List Int) (a : Int) : l.foldl max a ∈ a :: l := by
  induction l generalizing a with
  | nil => simp [List.foldl]
  | cons b l ih =>
    rw [List.foldl_cons]
    rcases List.mem_cons.mp (ih (max a b)) with h1 | h1
    · rw [h1]
      rcases max_choice a b with h2 | h2
      · rw [h2]; exact List.mem_cons_self _ _
      · rw [h2]; exact List.mem_cons.mpr (Or.inr (List.mem_cons_self _ _))
    · exact List.mem_cons.mpr (Or.inr (List.mem_cons.mpr (Or.inr h1)))

/-- A left fold of binary `max` is an upper bound for the seed and every
list element. -/
theorem le_foldl_max (l : List Int) (a : Int) :
    ∀ y ∈ a :: l, y ≤ l.foldl max a := by
  induction l generalizing a with
  | nil =>
    intro y hy
    simp at hy
    simp [List.foldl, hy]
  | cons b l ih =>
    intro y hy
    rw [List.foldl_cons]
    have hub : max a b ≤ l.foldl max (max a b) :=
      ih (max a b) (max a b) (List.mem_cons_self _ _)
    rcases List.mem_cons.mp hy with h1 | h1
    · rw [h1]
      exact le_trans (le_max_left a b) hub
    rcases List.mem_cons.mp h1 with h2 | h2
    · rw [h2]
      exact le_trans (le_max_right a b) hub
    · exact ih (max a b) y (List.mem_cons.mpr (Or.inr h2))

/-- C8 counterexample: the claim says `min_max()` "still works on a
Cursor wrapper"; on the cursor over `[3,1,2]` it instead fails, because
`min` drains the shared iterator and `max` then sees an empty sequence —
so it does not yield `(1, 3)`. -/
theorem min_max_cursor_fails :
    Iterator.min_max [3, 1, 2] =
      .error (.valueError "max() arg is an empty sequence") ∧
    Iterator.min_max [3, 1, 2] ≠ Except.ok (1, 3) := by
  constructor
  · rfl
  · intro h
    have h1 : Iterator.min_max [3, 1, 2] =
        .error (.valueError "max() arg is an empty sequence") := rfl
    rw [h1] at h
    exact Except.noConfusion h

/-- C8 amended: on a *materialized* wrapper over a non-empty sequence,
`min_max()` yields `(ok m, ok M)` with `m` the minimum and `M` the
maximum of the held elements; on a *cursor* wrapper the inherited
`min_max` always fails with an empty-sequence error (from `min` when the
cursor is already empty, otherwise from `max` over the drained cursor);
and `max()` on an empty sequence fails with the empty-sequence error. -/
theorem min_max_materialized (w : Iterable) (h : w.x ≠ []) :
    (∃ m M, Iterable.min_max w = (.ok m, .ok M) ∧ m ∈ w.x ∧ M ∈ w.x ∧
      ∀ y ∈ w.x, m ≤ y ∧ y ≤ M) ∧
    (∃ msg, Iterator.min_max w.x = .error (.valueError msg)) ∧
    Iterable.max ⟨[]⟩ = .error (.valueError "max() arg is an empty sequence") := by
  refine ⟨?_, ?_, rfl⟩
  · match hx : w.x with
    | [] => exact absurd hx h
    | e :: rest =>
      refine ⟨rest.foldl min e, rest.foldl max e, ?_, ?_, ?_, ?_⟩
      · simp [Iterable.min_max, Iterable.min, Iterable.max, hx, pymin, pymax]
      · exact foldl_min_mem rest e
      · exact foldl_max_mem rest e
      · intro y hy
        exact ⟨foldl_min_le rest e y hy, le_foldl_max rest e y hy⟩
  · match hx : w.x with
    | [] => exact ⟨"min() arg is an empty sequence", rfl⟩
    | e :: rest => exact ⟨"max() arg is an empty sequence", rfl⟩

/-- Concrete witness for C8 amended: on the materialized wrapper over
`[3,1,2]`, `min_max()` yields the bounds, and the concrete value is
`(ok 1, ok 3)`. -/
theorem min_max_materialized_witness :
    ((⟨[3, 1, 2]⟩ : Iterable).x ≠ [] ∧
      Iterable.min_max ⟨[3, 1, 2]⟩ = (.ok 1, .ok 3)) ∧
    ((∃ m M, Iterable.min_max ⟨[3, 1, 2]⟩ = (.ok m, .ok M) ∧
        m ∈ (⟨[3, 1, 2]⟩ : Iterable).x ∧ M ∈ (⟨[3, 1, 2]⟩ : Iterable).x ∧
        ∀ y ∈ (⟨[3, 1, 2]⟩ : Iterable).x, m ≤ y ∧ y ≤ M) ∧
      (∃ msg, Iterator.min_max (⟨[3, 1, 2]⟩ : Iterable).x =
        .error (.valueError msg)) ∧
      Iterable.max ⟨[]⟩ = .error (.valueError "max() arg is an empty sequence")) :=
  ⟨⟨by decide, by rfl⟩, min_max_materialized ⟨[3, 1, 2]⟩ (by decide)⟩

/-! ### C10: integer indexing fallback -/

/-- C10: for an in-range integer index `i` over a natively indexable
container, `wrapper[i]` returns the element wrapped through the factory
exactly when the element is itself iterable; when it is not, the
factory `TypeError` is silently caught and `wrapper[i]` is the
`skip(i).take(1)` cursor, which yields the single element `S[i]`. -/
theorem getitem_int_fallback (xs : List Elem) (i : Nat) (h : i < xs.length) :
    (Elem.iterable xs[i] = true →
      getitemInt xs i = .ok (.materializedOf xs[i])) ∧
    (Elem.iterable xs[i] = false →
      getitemInt xs i = .ok (.cursorOf [xs[i]])) := by
  have hdrop : (xs.drop i).take 1 = [xs.get ⟨i, h⟩] := by
    rw [List.drop_eq_getElem_cons h]
    simp [List.take]
  constructor
  · intro hit
    simp [getitemInt, h, ItElem, hit]
  · intro hit
    simp [getitemInt, h, ItElem, hit, hdrop]

/-- Concrete witness for C10: in `[5, [7]]`, index 0 holds a
non-iterable integer and gives the one-element `skip(0).take(1)` cursor,
while index 1 holds an iterable sub-container and gives a materialized
wrapper around it. -/
theorem getitem_int_fallback_witness :
    getitemInt [Elem.int 5, Elem.sub [7]] 0 = .ok (.cursorOf [Elem.int 5]) ∧
    getitemInt [Elem.int 5, Elem.sub [7]] 1 =
      .ok (.materializedOf (Elem.sub [7])) :=
  ⟨(getitem_int_fallback [Elem.int 5, Elem.sub [7]] 0 (by decide)).2 (by decide),
   (getitem_int_fallback [Elem.int 5, Elem.sub [7]] 1 (by decide)).1 (by decide)⟩

end Flpy
